import Mathlib

/-!
Shallow embedding of `src/data_proccess.py` (`process_10G_files`): a streaming
batch quality-scan and cleaning pipeline over 14-column records, built on
pandas/pyarrow.  Cells are modelled by an explicit `Value` type covering the
Python values the pipeline manipulates (numbers as exact rationals, strings,
booleans, datetimes, `None` and float `NaN`); pandas comparison semantics
(`NaN < c` is false), pandas null-detection, `duplicated`/`drop_duplicates`,
the email regex, gender normalisation, `astype(bool)` truthiness and the final
ratio computations are each translated into executable Lean definitions.
-/

namespace DataProcess

/-- A cell value as the pipeline sees it after `batch.to_pandas()`:
a number (Python int/float modelled exactly as a rational), a string, a
boolean, a datetime (epoch offset), Python `None`, or float `NaN`
(which is also the model of `NaT`). -/
inductive Value where
  | num : ℚ → Value
  | str : String → Value
  | bool : Bool → Value
  | dt : Int → Value
  | pyNone : Value
  | nan : Value
deriving DecidableEq, Repr

/-- `pandas.isnull` on a cell: `NaN` (incl. `NaT`) and `None` are null. -/
def isNull : Value → Bool
  | .nan => true
  | .pyNone => true
  | _ => false

/-- The cell holds an actual number. -/
def isNum : Value → Bool
  | .num _ => true
  | _ => false

/-- pandas elementwise `col < c`: true only for an actual number below `c`;
a null (`NaN`) comparison is always false. -/
def numLt (v : Value) (c : ℚ) : Bool :=
  match v with
  | .num n => decide (n < c)
  | _ => false

/-- pandas elementwise `col > c`. -/
def numGt (v : Value) (c : ℚ) : Bool :=
  match v with
  | .num n => decide (c < n)
  | _ => false

/-- pandas elementwise `col >= c`. -/
def numGe (v : Value) (c : ℚ) : Bool :=
  match v with
  | .num n => decide (c ≤ n)
  | _ => false

/-- pandas elementwise `col <= c`. -/
def numLe (v : Value) (c : ℚ) : Bool :=
  match v with
  | .num n => decide (n ≤ c)
  | _ => false

/-- One record: the fixed 14-column schema of the batches. -/
structure Row where
  timestamp : Value
  user_name : Value
  chinese_name : Value
  email : Value
  age : Value
  income : Value
  gender : Value
  country : Value
  chinese_address : Value
  purchase_history : Value
  is_active : Value
  registration_date : Value
  credit_score : Value
  phone_number : Value
deriving DecidableEq, Repr

/-- A default row (used only as the `getD` fallback in index-based specs). -/
def defaultRow : Row :=
  ⟨.nan, .nan, .nan, .nan, .nan, .nan, .nan, .nan, .nan, .nan, .nan, .nan,
   .nan, .nan⟩

/-- A batch: `batch.to_pandas()` as an ordered list of rows. -/
abbrev Batch := List Row

/-! ### Quality scan (source lines 40–56) -/

/-- `(batch_df['age'] < 0) | (batch_df['age'] > 120)`. -/
def ageOutlier (r : Row) : Bool := numLt r.age 0 || numGt r.age 120

/-- `(batch_df['income'] < 0) | (batch_df['income'] > 1e9)`. -/
def incomeOutlier (r : Row) : Bool := numLt r.income 0 || numGt r.income 1000000000

/-- `(batch_df['credit_score'] < 300) | (batch_df['credit_score'] > 850)`. -/
def creditOutlier (r : Row) : Bool :=
  numLt r.credit_score 300 || numGt r.credit_score 850

/-- `batch_df[col].isnull().sum()` for one column. -/
def missingCount (f : Row → Value) (b : Batch) : Nat :=
  (b.filter (fun r => isNull (f r))).length

/-- `len(batch_df[pred])` for one outlier rule. -/
def outlierCount (p : Row → Bool) (b : Batch) : Nat := (b.filter p).length

/-- Helper for `batch_df.duplicated().sum()`: counts rows already present in
`seen` or equal to an earlier row of the remaining list. -/
def dupCountAux (seen : List Row) : List Row → Nat
  | [] => 0
  | r :: rest => (if r ∈ seen then 1 else 0) + dupCountAux (r :: seen) rest

/-- `batch_df.duplicated().sum()`: number of rows equal to an earlier row of
the same batch (all columns; pandas treats equal-position NaNs as equal,
matching structural equality of `Value`). -/
def dupCount (b : Batch) : Nat := dupCountAux [] b

/-! ### Cleaning (source lines 59–88) -/

/-- The row-keeping mask of the range-filtering step:
`(age >= 0) & (age <= 120) & (income >= 0) & (income <= 1e9) &
(credit_score >= 300) & (credit_score <= 850)`. -/
def inRange (r : Row) : Bool :=
  numGe r.age 0 && numLe r.age 120 &&
  numGe r.income 0 && numLe r.income 1000000000 &&
  numGe r.credit_score 300 && numLe r.credit_score 850

/-- Step 1 of cleaning: keep exactly the rows whose mask is true. -/
def rangeFilter (b : Batch) : Batch := b.filter inRange

/-- Helper for `drop_duplicates()` (keep the first occurrence). -/
def dropDupAux (seen : List Row) : List Row → List Row
  | [] => []
  | r :: rest =>
      if r ∈ seen then dropDupAux (r :: seen) rest
      else r :: dropDupAux (r :: seen) rest

/-- Step 2 of cleaning: `batch_df.drop_duplicates()`. -/
def dropDup (b : Batch) : Batch := dropDupAux [] b

/-- `pd.to_datetime(col, errors='coerce')` on one cell.  The pandas datetime
parser itself is external to the repository: canonical datetimes pass
through unchanged and anything unparseable becomes `NaT` (modelled as
`nan`); string-date parsing is conservatively modelled as unparseable,
which no claim depends on. -/
def toDatetimeCoerce : Value → Value
  | .dt d => .dt d
  | _ => .nan

/-- Step 3 of cleaning: normalise `timestamp` and `registration_date`. -/
def normTimestamps (r : Row) : Row :=
  { r with timestamp := toDatetimeCoerce r.timestamp,
           registration_date := toDatetimeCoerce r.registration_date }

/-- `\w` of the email regex (ASCII fragment of Python word characters). -/
def isWordChar (c : Char) : Bool := c.isAlphanum || c = '_'

/-- The character class `[\w\.-]` of the email regex. -/
def isLocalChar (c : Char) : Bool := isWordChar c || c = '.' || c = '-'

/-- The list starts with the character `c`. -/
def headIs (c : Char) : List Char → Bool
  | x :: _ => x = c
  | [] => false

/-- Matcher for the regex tail `[\w\.-]+\.\w+` against a whole suffix:
tries every split `d ++ '.' :: t`. -/
def tailMatch (r : List Char) : Bool :=
  (List.range (r.length + 1)).any fun j =>
    !(r.take j).isEmpty && (r.take j).all isLocalChar &&
    headIs '.' (r.drop j) &&
    !((r.drop j).tail).isEmpty && ((r.drop j).tail).all isWordChar

/-- Matcher for `[\w\.-]+@[\w\.-]+\.\w+` against a whole string:
tries every split `l ++ '@' :: rest`. -/
def emailMatch (cs : List Char) : Bool :=
  (List.range (cs.length + 1)).any fun i =>
    !(cs.take i).isEmpty && (cs.take i).all isLocalChar &&
    headIs '@' (cs.drop i) && tailMatch ((cs.drop i).tail)

/-- `bool(re.match(r'^[\w\.-]+@[\w\.-]+\.\w+$', s))`: the Python `$` anchor
matches at the end of the string or just before one newline at the end, so
the pattern may also be followed by a single trailing `'\n'`. -/
def reMatchEmail (s : String) : Bool :=
  emailMatch s.toList ||
  (s.toList.getLast? == some '\n' && emailMatch s.toList.dropLast)

/-- `is_valid_email` from the source: regex match for strings, `False` for
any non-string value. -/
def is_valid_email : Value → Bool
  | .str s => reMatchEmail s
  | _ => false

/-- Step 4 of cleaning: `batch_df[~invalid_emails]`. -/
def emailFilter (b : Batch) : Batch :=
  b.filter (fun r => is_valid_email r.email)

/-- Step 5 of cleaning: `x if x in ['Male','Female','Other'] else 'Other'`. -/
def normGender (v : Value) : Value :=
  if v = .str "Male" ∨ v = .str "Female" ∨ v = .str "Other" then v
  else .str "Other"

/-- Python truthiness, as applied elementwise by `astype(bool)` on an object
column: `bool(None)` is false, `bool(nan)` is true, a string is true iff
non-empty, a number is true iff non-zero. -/
def pyTruthy : Value → Bool
  | .str s => s ≠ ""
  | .num n => n ≠ 0
  | .bool b => b
  | .dt _ => true
  | .pyNone => false
  | .nan => true

/-- Step 6 of cleaning: `batch_df['is_active'].astype(bool)` on one cell. -/
def astypeBool (v : Value) : Value := .bool (pyTruthy v)

/-- The full cleaning sequence of one batch, in source order: range filter,
duplicate drop, timestamp normalisation, email filter, gender
normalisation, boolean coercion. -/
def cleanBatch (b : Batch) : Batch :=
  ((emailFilter ((dropDup (rangeFilter b)).map normTimestamps)).map
      (fun r => { r with gender := normGender r.gender })).map
    (fun r => { r with is_active := astypeBool r.is_active })

/-- `original_len - len(batch_df)`: the per-batch rows-removed delta added to
`deleted_rows`. -/
def rowsRemoved (b : Batch) : Nat := b.length - (cleanBatch b).length

/-! ### Aggregation across batches and files (source lines 10–19, 40–56, 91–95) -/

/-- The `missing_counts` pandas Series: one counter per schema column. -/
structure MissingCounts where
  timestamp : Nat
  user_name : Nat
  chinese_name : Nat
  email : Nat
  age : Nat
  income : Nat
  gender : Nat
  country : Nat
  chinese_address : Nat
  purchase_history : Nat
  is_active : Nat
  registration_date : Nat
  credit_score : Nat
  phone_number : Nat
deriving DecidableEq, Repr

/-- Elementwise `+` of two missing-count Series. -/
def MissingCounts.add (x y : MissingCounts) : MissingCounts :=
  ⟨x.timestamp + y.timestamp, x.user_name + y.user_name,
   x.chinese_name + y.chinese_name, x.email + y.email, x.age + y.age,
   x.income + y.income, x.gender + y.gender, x.country + y.country,
   x.chinese_address + y.chinese_address,
   x.purchase_history + y.purchase_history, x.is_active + y.is_active,
   x.registration_date + y.registration_date,
   x.credit_score + y.credit_score, x.phone_number + y.phone_number⟩

/-- `batch_df.isnull().sum()` over the whole schema. -/
def batchMissing (b : Batch) : MissingCounts :=
  ⟨missingCount Row.timestamp b, missingCount Row.user_name b,
   missingCount Row.chinese_name b, missingCount Row.email b,
   missingCount Row.age b, missingCount Row.income b,
   missingCount Row.gender b, missingCount Row.country b,
   missingCount Row.chinese_address b, missingCount Row.purchase_history b,
   missingCount Row.is_active b, missingCount Row.registration_date b,
   missingCount Row.credit_score b, missingCount Row.phone_number b⟩

/-- All counters the loop body accumulates for one batch. -/
structure Report where
  missing : MissingCounts
  o_age : Nat
  o_income : Nat
  o_credit : Nat
  dup : Nat
  rows : Nat
  deleted : Nat
  processed : Nat
deriving DecidableEq, Repr

/-- The merge performed by the `+=` statements of the loop body: elementwise
addition of every counter. -/
def Report.add (x y : Report) : Report :=
  ⟨x.missing.add y.missing, x.o_age + y.o_age, x.o_income + y.o_income,
   x.o_credit + y.o_credit, x.dup + y.dup, x.rows + y.rows,
   x.deleted + y.deleted, x.processed + y.processed⟩

/-- The initial counters (source lines 10–19). -/
def emptyReport : Report := ⟨⟨0,0,0,0,0,0,0,0,0,0,0,0,0,0⟩, 0, 0, 0, 0, 0, 0, 0⟩

/-- The per-batch quality report: what one loop iteration adds to the
running totals. -/
def batchReport (b : Batch) : Report :=
  ⟨batchMissing b, outlierCount ageOutlier b, outlierCount incomeOutlier b,
   outlierCount creditOutlier b, dupCount b, b.length, rowsRemoved b,
   (cleanBatch b).length⟩

/-- Fold a list of per-batch reports into the running totals. -/
def foldReports (rs : List Report) : Report := rs.foldl Report.add emptyReport

/-! ### Whole-run model and final ratios (source lines 22–36, 101–103) -/

/-- One parquet input file as the pipeline sees it: its metadata row count
(`parquet_file.metadata.num_rows`) and the batches `iter_batches` yields.
A 0-row parquet file yields no batches. -/
structure PFile where
  numRows : Nat
  batches : List Batch

/-- `total_rows` after the file loop: the sum of the metadata row counts. -/
def runTotalRows (files : List PFile) : Nat := (files.map PFile.numRows).sum

/-- All batches of the run, in processing order. -/
def runBatches (files : List PFile) : List Batch :=
  (files.map PFile.batches).flatten

/-- The counter totals after the whole loop. -/
def runReport (files : List PFile) : Report :=
  foldReports ((runBatches files).map batchReport)

/-- True iff at least one batch was iterated during the run.  After the first
`duplicate_counts += batch_df.duplicated().sum()` the counter is a NumPy
integer; before that it is the Python `int` literal `0`. -/
def anyBatchIterated (files : List PFile) : Bool :=
  files.any (fun f => !f.batches.isEmpty)

/-- A pandas/NumPy float64 result of a counter division: a finite value,
`nan`, or `inf`. -/
inductive PdFloat where
  | fin : ℚ → PdFloat
  | nan : PdFloat
  | inf : PdFloat
deriving DecidableEq, Repr

/-- pandas Series / NumPy-integer true division of a counter by
`total_rows`: division by zero yields `nan` (for a zero numerator) or
`inf` (positive numerator) with a warning, never an exception. -/
def pdDivNat (c t : Nat) : PdFloat :=
  if t = 0 then (if c = 0 then .nan else .inf) else .fin ((c : ℚ) / (t : ℚ))

/-- Python `int / int` true division: raises `ZeroDivisionError` on a zero
divisor. -/
def pyDivNat (c t : Nat) : Except String PdFloat :=
  if t = 0 then .error "ZeroDivisionError" else .ok (.fin ((c : ℚ) / (t : ℚ)))

/-- `missing_counts / total_rows`: elementwise Series division. -/
structure MissingRatios where
  timestamp : PdFloat
  user_name : PdFloat
  chinese_name : PdFloat
  email : PdFloat
  age : PdFloat
  income : PdFloat
  gender : PdFloat
  country : PdFloat
  chinese_address : PdFloat
  purchase_history : PdFloat
  is_active : PdFloat
  registration_date : PdFloat
  credit_score : PdFloat
  phone_number : PdFloat
deriving DecidableEq, Repr

/-- The elementwise Series division `missing_counts / total_rows`. -/
def missingRatios (m : MissingCounts) (t : Nat) : MissingRatios :=
  ⟨pdDivNat m.timestamp t, pdDivNat m.user_name t, pdDivNat m.chinese_name t,
   pdDivNat m.email t, pdDivNat m.age t, pdDivNat m.income t,
   pdDivNat m.gender t, pdDivNat m.country t, pdDivNat m.chinese_address t,
   pdDivNat m.purchase_history t, pdDivNat m.is_active t,
   pdDivNat m.registration_date t, pdDivNat m.credit_score t,
   pdDivNat m.phone_number t⟩

/-- The final printed/returned report. -/
structure FinalReport where
  total_rows : Nat
  processed_rows : Nat
  deleted_rows : Nat
  missing : MissingRatios
  o_age : PdFloat
  o_income : PdFloat
  o_credit : PdFloat
  dup : PdFloat
deriving DecidableEq, Repr

/-- The end of `process_10G_files` (source lines 101–103 and the returned
dict): computes the three ratio groups.  `missing_counts` and
`outlier_counts` are pandas Series, so their division by a zero
`total_rows` produces `nan` entries; `duplicate_counts` is still the
Python `int` `0` when no batch was iterated, in which case
`duplicate_counts / total_rows` raises `ZeroDivisionError`. -/
def finalizeRun (files : List PFile) : Except String FinalReport :=
  let t := runTotalRows files
  let rep := runReport files
  let dupR : Except String PdFloat :=
    if anyBatchIterated files then Except.ok (pdDivNat rep.dup t)
    else pyDivNat rep.dup t
  match dupR with
  | .error e => .error e
  | .ok dr =>
      .ok ⟨t, rep.processed, rep.deleted, missingRatios rep.missing t,
           pdDivNat rep.o_age t, pdDivNat rep.o_income t,
           pdDivNat rep.o_credit t, dr⟩

/-! ### Input path construction (source lines 22–26) -/

/-- The path of the `i`-th input file: the `file_paths` argument is used for
indices 0–9, while indices 10–15 use a hard-coded `10G_data` path. -/
def filePath (file_paths : String) (i : Nat) : String :=
  if i < 10 then file_paths ++ toString i ++ ".parquet"
  else "10G_data/part-000" ++ toString i ++ ".parquet"

/-! ### Specification-side definitions (for refinement comparisons) -/

/-- Spec-side duplicate count, following the spec's words: the number of rows
that are an exact duplicate of an earlier row within the same batch. -/
def specDupCount (b : Batch) : Nat :=
  ((List.range b.length).filter
    (fun i => decide (b.getD i defaultRow ∈ b.take i))).length

/-- Spec-side deduplication, following the spec's words: keep exactly the
first occurrence of each duplicate group, in order. -/
def firstOccurrences (b : Batch) : Batch :=
  ((List.range b.length).filter
    (fun i => decide (b.getD i defaultRow ∉ b.take i))).map
    (fun i => b.getD i defaultRow)

/-- Spec-side email shape, following the spec's words: one-or-more of
[word chars, dot, hyphen], then `@`, then one-or-more of
[word chars, dot, hyphen], then `.`, then one-or-more word chars. -/
def emailShape (cs : List Char) : Prop :=
  ∃ l d t, cs = l ++ '@' :: (d ++ '.' :: t) ∧
    l ≠ [] ∧ l.all isLocalChar = true ∧
    d ≠ [] ∧ d.all isLocalChar = true ∧
    t ≠ [] ∧ t.all isWordChar = true

/-! ### Concrete rows for the scenario claims -/

/-- A fully valid row: in-range numerics, a well-formed email. -/
def validRow : Row :=
  ⟨.dt 0, .str "u", .str "n", .str "a.b@c.com", .num 30, .num 50000,
   .str "Male", .str "CN", .str "addr", .str "[]", .bool true, .dt 0,
   .num 700, .str "123"⟩

/-- Scenario F: boundary credit score 851. -/
def row851 : Row := { validRow with credit_score := .num 851 }

/-- Scenario F: boundary credit score 850. -/
def row850 : Row := { validRow with credit_score := .num 850 }

/-- A row whose `age` is null. -/
def rowNullAge : Row := { validRow with age := .nan }

/-- A row whose `income` is null. -/
def rowNullIncome : Row := { validRow with income := .nan }

/-- A row whose `credit_score` is null. -/
def rowNullCredit : Row := { validRow with credit_score := .nan }

/-- A valid row with a gender outside the valid set. -/
def rowGenderA : Row := { validRow with gender := .str "ga" }

/-- Another valid row, differing from `rowGenderA` only in gender. -/
def rowGenderB : Row := { validRow with gender := .str "gb" }

/-- A row whose email is not a valid address. -/
def rowBadEmail : Row := { validRow with email := .str "x" }

/-! ## Theorems -/

theorem length_dropDupAux_le (l : List Row) :
    ∀ seen, (dropDupAux seen l).length ≤ l.length := by
  induction l with
  | nil => intro seen; simp [dropDupAux]
  | cons r rest ih =>
      intro seen
      simp only [dropDupAux, List.length_cons]
      split
      · exact Nat.le_succ_of_le (ih _)
      · simpa using Nat.succ_le_succ (ih _)

theorem length_cleanBatch_le (b : Batch) : (cleanBatch b).length ≤ b.length := by
  unfold cleanBatch
  simp only [List.length_map]
  calc (emailFilter ((dropDup (rangeFilter b)).map normTimestamps)).length
      ≤ ((dropDup (rangeFilter b)).map normTimestamps).length :=
        List.length_filter_le _ _
    _ = (dropDup (rangeFilter b)).length := List.length_map _ _
    _ ≤ (rangeFilter b).length := length_dropDupAux_le _ _
    _ ≤ b.length := List.length_filter_le _ _

/-- C2: for every batch, the cleaned length plus the recorded rows-removed
delta equals the original batch length. -/
theorem c2_row_conservation (b : Batch) :
    (cleanBatch b).length + rowsRemoved b = b.length := by
  have h := length_cleanBatch_le b
  unfold rowsRemoved
  omega

/-- C10: for file indices 10–15 the input path is the hard-coded
`10G_data/part-000{i}.parquet` string, independent of the `file_paths`
argument, while indices 0–9 honour the argument. -/
theorem c10_path_argument_honored_only_below_10 (fp fq : String) (i : Nat)
    (h : 10 ≤ i) :
    filePath fp i = "10G_data/part-000" ++ toString i ++ ".parquet" ∧
    filePath fp i = filePath fq i ∧
    (∀ j : Nat, j < 10 → filePath fp j = fp ++ toString j ++ ".parquet") := by
  have h' : ¬ i < 10 := by omega
  exact ⟨by simp [filePath, h'], by simp [filePath, h'],
    fun j hj => by simp [filePath, hj]⟩

/-- Witness for C10: a run invoked with the `30G_data` path stem still reads
file index 12 from `10G_data`. -/
theorem c10_path_argument_honored_only_below_10_witness :
    filePath "30G_data/part-0000" 12 = "10G_data/part-00012.parquet" ∧
    filePath "30G_data/part-0000" 12 = filePath "10G_data/part-0000" 12 := by
  have h := c10_path_argument_honored_only_below_10 "30G_data/part-0000"
    "10G_data/part-0000" 12 (by norm_num)
  exact ⟨h.1.trans (by decide), h.2.1⟩

/-- C5: a credit score is counted as an outlier exactly when it is below 300
or above 850; the boundary is inclusive, so 851 is counted and removed by
range filtering while 850 is retained. -/
theorem c5_credit_boundary_inclusive :
    (∀ (r : Row) (q : ℚ), r.credit_score = .num q →
       (creditOutlier r = true ↔ (q < 300 ∨ 850 < q))) ∧
    creditOutlier row851 = true ∧ rangeFilter [row851] = [] ∧
    creditOutlier row850 = false ∧ rangeFilter [row850] = [row850] := by
  refine ⟨fun r q h => ?_, by decide, by decide, by decide, by decide⟩
  simp [creditOutlier, numLt, numGt, h]

/-- Witness for C5: the general boundary characterisation applied at the
concrete credit score 851. -/
theorem c5_credit_boundary_inclusive_witness :
    creditOutlier row851 = true :=
  (c5_credit_boundary_inclusive.1 row851 851 rfl).mpr (Or.inr (by norm_num))

/-- C9 counterexample: a null `is_active` cell (Python `None`) is coerced to
`False` by `astype(bool)`, not to `True` as claimed. -/
theorem c9_none_coerces_to_false :
    isNull Value.pyNone = true ∧ astypeBool Value.pyNone = Value.bool false := by
  decide

/-- C9 (amended): `astype(bool)` is total truthy coercion — it always
produces a boolean; every non-empty string (including `"False"`) and float
`NaN` coerce to `True`; Python `None`, the empty string, `False` and `0`
coerce to `False`. -/
theorem c9_astype_bool_truthiness :
    (∀ v : Value, astypeBool v = Value.bool (pyTruthy v)) ∧
    (∀ s : String, s ≠ "" → astypeBool (Value.str s) = Value.bool true) ∧
    astypeBool (Value.str "False") = Value.bool true ∧
    astypeBool Value.nan = Value.bool true ∧
    astypeBool Value.pyNone = Value.bool false ∧
    astypeBool (Value.str "") = Value.bool false ∧
    astypeBool (Value.bool false) = Value.bool false ∧
    astypeBool (Value.num 0) = Value.bool false := by
  refine ⟨fun v => rfl, fun s hs => ?_, by decide, by decide, by decide,
    by decide, by decide, by decide⟩
  simp [astypeBool, pyTruthy, hs]

/-- Witness for C9: the non-empty-string clause applied at the literal text
`"False"`. -/
theorem c9_astype_bool_truthiness_witness :
    astypeBool (Value.str "False") = Value.bool true :=
  c9_astype_bool_truthiness.2.1 "False" (by decide)

theorem numGe_eq_not_lt (v : Value) (c : ℚ) :
    numGe v c = (isNum v && !numLt v c) := by
  cases v <;> simp [numGe, numLt, isNum, ← decide_not, not_lt]

theorem numLe_eq_not_gt (v : Value) (c : ℚ) :
    numLe v c = (isNum v && !numGt v c) := by
  cases v <;> simp [numLe, numGt, isNum, ← decide_not, not_lt]

/-- C1 (amended): null values never satisfy an outlier predicate in the
quality scan, but the range-filtering keep-mask requires the three numeric
range comparisons to hold, which a null value also fails; hence range
filtering keeps exactly the rows whose age, income and credit score are
actual numbers and not outliers — a row that is null in any of the three
columns is removed, although it was never counted as an outlier. -/
theorem c1_nulls_not_outliers_but_removed :
    (∀ r : Row, isNull r.age = true → ageOutlier r = false) ∧
    (∀ r : Row, isNull r.income = true → incomeOutlier r = false) ∧
    (∀ r : Row, isNull r.credit_score = true → creditOutlier r = false) ∧
    (∀ r : Row, inRange r =
      (isNum r.age && isNum r.income && isNum r.credit_score &&
       !(ageOutlier r || incomeOutlier r || creditOutlier r))) ∧
    (∀ b : Batch, rangeFilter b = b.filter inRange) := by
  refine ⟨?_, ?_, ?_, ?_, fun b => rfl⟩
  · intro r h
    cases hv : r.age <;> simp_all [isNull, ageOutlier, numLt, numGt]
  · intro r h
    cases hv : r.income <;> simp_all [isNull, incomeOutlier, numLt, numGt]
  · intro r h
    cases hv : r.credit_score <;>
      simp_all [isNull, creditOutlier, numLt, numGt]
  · intro r
    simp only [inRange, ageOutlier, incomeOutlier, creditOutlier,
      numGe_eq_not_lt, numLe_eq_not_gt]
    generalize isNum r.age = n1
    generalize isNum r.income = n2
    generalize isNum r.credit_score = n3
    generalize numLt r.age 0 = a1
    generalize numGt r.age 120 = a2
    generalize numLt r.income 0 = b1
    generalize numGt r.income 1000000000 = b2
    generalize numLt r.credit_score 300 = c1
    generalize numGt r.credit_score 850 = c2
    revert n1 n2 n3 a1 a2 b1 b2 c1 c2
    decide

/-- C1 counterexample: a row with a null age satisfies none of the three
outlier predicates, yet the range-filtering step removes it. -/
theorem c1_null_age_row_removed :
    ageOutlier rowNullAge = false ∧ incomeOutlier rowNullAge = false ∧
    creditOutlier rowNullAge = false ∧ isNull rowNullAge.age = true ∧
    rangeFilter [rowNullAge] = [] := by
  decide

/-- Witness for C1: the null-never-outlier clauses applied at concrete
null-valued rows. -/
theorem c1_nulls_not_outliers_but_removed_witness :
    ageOutlier rowNullAge = false ∧ incomeOutlier rowNullIncome = false ∧
    creditOutlier rowNullCredit = false :=
  ⟨c1_nulls_not_outliers_but_removed.1 rowNullAge (by decide),
   c1_nulls_not_outliers_but_removed.2.1 rowNullIncome (by decide),
   c1_nulls_not_outliers_but_removed.2.2.1 rowNullCredit (by decide)⟩

theorem mem_of_mem_dropDupAux {r : Row} :
    ∀ {l seen : List Row}, r ∈ dropDupAux seen l → r ∈ l := by
  intro l
  induction l with
  | nil => intro seen h; simp [dropDupAux] at h
  | cons x rest ih =>
      intro seen h
      simp only [dropDupAux] at h
      split at h
      · exact List.mem_cons_of_mem _ (ih h)
      · rcases List.mem_cons.mp h with h1 | h2
        · exact h1 ▸ List.mem_cons_self _ _
        · exact List.mem_cons_of_mem _ (ih h2)

theorem inRange_of_mem_cleanBatch {r : Row} {b : Batch}
    (h : r ∈ cleanBatch b) : inRange r = true := by
  unfold cleanBatch emailFilter at h
  rcases List.mem_map.mp h with ⟨r5, h5, rfl⟩
  rcases List.mem_map.mp h5 with ⟨r4, h4, rfl⟩
  rcases List.mem_filter.mp h4 with ⟨h3, _⟩
  rcases List.mem_map.mp h3 with ⟨r2, h2, rfl⟩
  have hr : r2 ∈ rangeFilter b := mem_of_mem_dropDupAux h2
  exact (List.mem_filter.mp hr).2

theorem email_valid_of_mem_cleanBatch {r : Row} {b : Batch}
    (h : r ∈ cleanBatch b) : is_valid_email r.email = true := by
  unfold cleanBatch emailFilter at h
  rcases List.mem_map.mp h with ⟨r5, h5, rfl⟩
  rcases List.mem_map.mp h5 with ⟨r4, h4, rfl⟩
  exact (List.mem_filter.mp h4).2

/-- C3 (amended): every row of a cleaned batch still passes the range and
email filters, so re-running cleaning removes nothing at those two steps;
full idempotence nevertheless fails, because gender/timestamp/boolean
normalisation runs after duplicate filtering and can make two distinct
surviving rows equal, which the duplicate step of a second run removes. -/
theorem c3_recleaning_keeps_range_and_email (b : Batch) :
    rangeFilter (cleanBatch b) = cleanBatch b ∧
    emailFilter (cleanBatch b) = cleanBatch b := by
  constructor
  · exact List.filter_eq_self.mpr fun r hr => inRange_of_mem_cleanBatch hr
  · exact List.filter_eq_self.mpr fun r hr => email_valid_of_mem_cleanBatch hr

/-- C3 counterexample: two valid rows differing only in (invalid) gender are
both kept by cleaning and then normalised to identical rows, so a second
run of the full cleaning sequence removes one of them. -/
theorem c3_second_cleaning_removes_a_row :
    (cleanBatch [rowGenderA, rowGenderB]).length = 2 ∧
    (cleanBatch (cleanBatch [rowGenderA, rowGenderB])).length = 1 := by
  decide

theorem runBatches_nil_of_no_batches {files : List PFile}
    (h : anyBatchIterated files = false) : runBatches files = [] := by
  induction files with
  | nil => rfl
  | cons f fs ih =>
      rw [anyBatchIterated, List.any_cons, Bool.or_eq_false_iff] at h
      obtain ⟨h1, h2⟩ := h
      have hf : f.batches = [] := by
        cases hb : f.batches with
        | nil => rfl
        | cons x xs => rw [hb] at h1; simp at h1
      rw [runBatches, List.map_cons, List.flatten_cons, hf]
      simpa [runBatches] using ih h2

theorem runReport_empty_of_no_batches {files : List PFile}
    (h : anyBatchIterated files = false) : runReport files = emptyReport := by
  rw [runReport, runBatches_nil_of_no_batches h]
  rfl

/-- C4 (amended): in a run whose total observed row count is zero (only
0-row files, so no batch is ever yielded), the pandas Series divisions for
the missing and outlier ratios evaluate to NaN, but `duplicate_counts` is
still the Python int `0`, so `duplicate_counts / total_rows` raises
`ZeroDivisionError` and finalizing raises instead of returning a report. -/
theorem c4_zero_total_rows_raises (files : List PFile)
    (ht : runTotalRows files = 0) (hb : anyBatchIterated files = false) :
    finalizeRun files = Except.error "ZeroDivisionError" ∧
    missingRatios (runReport files).missing (runTotalRows files) =
      ⟨.nan, .nan, .nan, .nan, .nan, .nan, .nan, .nan, .nan, .nan, .nan,
       .nan, .nan, .nan⟩ ∧
    pdDivNat (runReport files).o_age (runTotalRows files) = .nan ∧
    pdDivNat (runReport files).o_income (runTotalRows files) = .nan ∧
    pdDivNat (runReport files).o_credit (runTotalRows files) = .nan := by
  have hrep := runReport_empty_of_no_batches hb
  refine ⟨?_, ?_, ?_, ?_, ?_⟩
  · simp [finalizeRun, hb, hrep, ht, pyDivNat, emptyReport]
  · rw [hrep, ht]; rfl
  · rw [hrep, ht]; rfl
  · rw [hrep, ht]; rfl
  · rw [hrep, ht]; rfl

/-- C4 counterexample: a run consisting of one 0-row file (which yields no
batches) makes finalization raise `ZeroDivisionError` instead of
reporting NaN ratios. -/
theorem c4_empty_run_division_error :
    finalizeRun [⟨0, []⟩] = Except.error "ZeroDivisionError" := rfl

/-- Witness for C4: the amended statement applied to the one-empty-file
run. -/
theorem c4_zero_total_rows_raises_witness :
    finalizeRun [⟨(0 : Nat), ([] : List Batch)⟩] =
      Except.error "ZeroDivisionError" :=
  (c4_zero_total_rows_raises [⟨0, []⟩] (by decide) (by decide)).1

theorem missing_add_assoc (x y z : MissingCounts) :
    (x.add y).add z = x.add (y.add z) := by
  simp [MissingCounts.add, Nat.add_assoc]

theorem missing_add_comm (x y : MissingCounts) : x.add y = y.add x := by
  simp [MissingCounts.add, Nat.add_comm]

theorem report_add_assoc (x y z : Report) :
    (x.add y).add z = x.add (y.add z) := by
  simp [Report.add, missing_add_assoc, Nat.add_assoc]

theorem report_add_comm (x y : Report) : x.add y = y.add x := by
  simp [Report.add, missing_add_comm, Nat.add_comm]

theorem foldl_report_add_perm {l₁ l₂ : List Report} (h : l₁.Perm l₂) :
    ∀ init, l₁.foldl Report.add init = l₂.foldl Report.add init := by
  induction h with
  | nil => intro init; rfl
  | cons x _ ih => intro init; simp only [List.foldl_cons]; exact ih _
  | swap x y l =>
      intro init
      simp only [List.foldl_cons]
      have hxy : (init.add y).add x = (init.add x).add y := by
        rw [report_add_assoc, report_add_assoc, report_add_comm y x]
      rw [hxy]
  | trans _ _ ih1 ih2 => intro init; exact (ih1 init).trans (ih2 init)

/-- C8: merging per-batch statistics is elementwise addition over counters,
associative and commutative, and folding the per-batch reports of any
permutation of a batch list yields identical final totals. -/
theorem c8_fold_assoc_comm_perm :
    (∀ x y z : Report, (x.add y).add z = x.add (y.add z)) ∧
    (∀ x y : Report, x.add y = y.add x) ∧
    (∀ bs₁ bs₂ : List Batch, bs₁.Perm bs₂ →
      foldReports (bs₁.map batchReport) = foldReports (bs₂.map batchReport)) := by
  refine ⟨report_add_assoc, report_add_comm, fun bs₁ bs₂ h => ?_⟩
  exact foldl_report_add_perm (h.map batchReport) emptyReport

/-- Witness for C8: two concrete batch lists in swapped order fold to the
same totals. -/
theorem c8_fold_assoc_comm_perm_witness :
    foldReports ([[validRow], [row850]].map batchReport) =
      foldReports ([[row850], [validRow]].map batchReport) :=
  c8_fold_assoc_comm_perm.2.2 [[validRow], [row850]] [[row850], [validRow]]
    (List.Perm.swap _ _ _)

theorem headIs_iff {c : Char} {l : List Char} :
    headIs c l = true ↔ ∃ t, l = c :: t := by
  cases l with
  | nil => simp [headIs]
  | cons x xs =>
      simp only [headIs, decide_eq_true_eq, List.cons.injEq]
      constructor
      · intro h; exact ⟨xs, h, rfl⟩
      · rintro ⟨t, hx, _⟩; exact hx

theorem ne_nil_of_not_isEmpty {l : List Char} (h : (!l.isEmpty) = true) :
    l ≠ [] := by
  cases l <;> simp_all

theorem not_isEmpty_of_ne_nil {l : List Char} (h : l ≠ []) :
    (!l.isEmpty) = true := by
  cases l <;> simp_all

theorem tailMatch_iff {r : List Char} :
    tailMatch r = true ↔
      ∃ d t, r = d ++ '.' :: t ∧ d ≠ [] ∧ d.all isLocalChar = true ∧
        t ≠ [] ∧ t.all isWordChar = true := by
  constructor
  · intro h
    rcases List.any_eq_true.mp h with ⟨j, _, hP⟩
    simp only [Bool.and_eq_true] at hP
    obtain ⟨⟨⟨⟨hne, hloc⟩, hhead⟩, htne⟩, htw⟩ := hP
    rcases headIs_iff.mp hhead with ⟨t, ht⟩
    have htail : (r.drop j).tail = t := by rw [ht]; rfl
    refine ⟨r.take j, t, ?_, ne_nil_of_not_isEmpty hne, hloc, ?_, ?_⟩
    · conv_lhs => rw [← List.take_append_drop j r]
      rw [ht]
    · rw [htail] at htne; exact ne_nil_of_not_isEmpty htne
    · rw [htail] at htw; exact htw
  · rintro ⟨d, t, rfl, hdne, hdloc, htne, htw⟩
    apply List.any_eq_true.mpr
    refine ⟨d.length, List.mem_range.mpr ?_, ?_⟩
    · simp [List.length_append]; omega
    · have htake : (d ++ '.' :: t).take d.length = d := List.take_left d _
      have hdrop : (d ++ '.' :: t).drop d.length = '.' :: t :=
        List.drop_left d _
      simp only [htake, hdrop, Bool.and_eq_true, List.tail_cons]
      exact ⟨⟨⟨⟨not_isEmpty_of_ne_nil hdne, hdloc⟩,
        headIs_iff.mpr ⟨t, rfl⟩⟩, not_isEmpty_of_ne_nil htne⟩, htw⟩

theorem emailMatch_iff {cs : List Char} :
    emailMatch cs = true ↔ emailShape cs := by
  constructor
  · intro h
    rcases List.any_eq_true.mp h with ⟨i, _, hP⟩
    simp only [Bool.and_eq_true] at hP
    obtain ⟨⟨⟨hne, hloc⟩, hhead⟩, htail⟩ := hP
    rcases headIs_iff.mp hhead with ⟨rest, hrest⟩
    have hrest' : (cs.drop i).tail = rest := by rw [hrest]; rfl
    rw [hrest'] at htail
    rcases tailMatch_iff.mp htail with ⟨d, t, hdt, hdne, hdloc, htne, htw⟩
    refine ⟨cs.take i, d, t, ?_,
      ne_nil_of_not_isEmpty hne, hloc, hdne, hdloc, htne, htw⟩
    conv_lhs => rw [← List.take_append_drop i cs]
    rw [hrest, hdt]
  · rintro ⟨l, d, t, rfl, hlne, hlloc, hdne, hdloc, htne, htw⟩
    apply List.any_eq_true.mpr
    refine ⟨l.length, List.mem_range.mpr ?_, ?_⟩
    · simp [List.length_append]; omega
    · have htake : (l ++ '@' :: (d ++ '.' :: t)).take l.length = l :=
        List.take_left l _
      have hdrop : (l ++ '@' :: (d ++ '.' :: t)).drop l.length =
          '@' :: (d ++ '.' :: t) := List.drop_left l _
      simp only [htake, hdrop, Bool.and_eq_true, List.tail_cons]
      exact ⟨⟨⟨not_isEmpty_of_ne_nil hlne, hlloc⟩,
        headIs_iff.mpr ⟨d ++ '.' :: t, rfl⟩⟩,
        tailMatch_iff.mpr ⟨d, t, rfl, hdne, hdloc, htne, htw⟩⟩

theorem reMatchEmail_iff {s : String} :
    reMatchEmail s = true ↔
      (emailShape s.toList ∨
       (s.toList.getLast? = some '\n' ∧ emailShape s.toList.dropLast)) := by
  simp [reMatchEmail, emailMatch_iff]

/-- C6 (amended): the email step keeps exactly the rows whose email is a
string accepted by `re.match(r'^[\w\.-]+@[\w\.-]+\.\w+$', ·)`; an accepted
string is exactly one of the claim's shape — one-or-more of [word chars,
dot, hyphen], then `@`, then one-or-more of [word chars, dot, hyphen],
then `.`, then one-or-more word chars — optionally followed by a single
trailing newline, since the Python `$` anchor also matches just before a
newline at the end of the string.  Non-string and empty email values are
invalid; `"a@@b"` is rejected and `"a.b@c.com"` accepted. -/
theorem c6_email_step_characterisation :
    (∀ b : Batch,
      emailFilter b = b.filter (fun r => is_valid_email r.email)) ∧
    (∀ s : String, is_valid_email (Value.str s) = true ↔
      (emailShape s.toList ∨
       (s.toList.getLast? = some '\n' ∧ emailShape s.toList.dropLast))) ∧
    (∀ v : Value, (∀ s : String, v ≠ Value.str s) →
      is_valid_email v = false) ∧
    is_valid_email (Value.str "") = false ∧
    is_valid_email (Value.str "a@@b") = false ∧
    is_valid_email (Value.str "a.b@c.com") = true := by
  refine ⟨fun b => rfl, fun _ => reMatchEmail_iff, ?_,
    by decide, by decide, by decide⟩
  intro v hv
  cases v
  all_goals first | rfl | exact absurd rfl (hv _)

/-- C6 counterexample: the code accepts `"a@b.c\n"` and keeps the row, even
though the string does not match the claim's described pattern shape. -/
theorem c6_trailing_newline_accepted :
    is_valid_email (Value.str "a@b.c\n") = true ∧
    ¬ emailShape ("a@b.c\n".toList) := by
  refine ⟨by decide, fun h => ?_⟩
  have ht := emailMatch_iff.mpr h
  have hfalse : emailMatch ("a@b.c\n".toList) = false := by decide
  rw [hfalse] at ht
  exact Bool.false_ne_true ht

/-- Witness for C6: the non-string clause applied at a concrete null
value. -/
theorem c6_email_step_characterisation_witness :
    is_valid_email Value.nan = false :=
  c6_email_step_characterisation.2.2.1 Value.nan
    (fun _ h => Value.noConfusion h)

theorem dupCountAux_spec (l : List Row) :
    ∀ seen, dupCountAux seen l =
      ((List.range l.length).filter
        (fun i => decide (l.getD i defaultRow ∈ seen ++ l.take i))).length := by
  induction l with
  | nil => intro seen; simp [dupCountAux]
  | cons r rest ih =>
      intro seen
      simp only [dupCountAux]
      rw [ih (r :: seen), List.length_cons, List.range_succ_eq_map,
        List.filter_cons, List.filter_map]
      simp only [List.getD_cons_zero, List.take_zero, List.append_nil]
      have hcomp : ((fun i => decide ((r :: rest).getD i defaultRow ∈
          seen ++ (r :: rest).take i)) ∘ Nat.succ) =
          (fun i => decide (rest.getD i defaultRow ∈
            (r :: seen) ++ rest.take i)) := by
        funext i
        simp only [Function.comp, List.getD_cons_succ, List.take_succ_cons]
        apply decide_eq_decide.mpr
        simp only [List.mem_append, List.mem_cons]
        tauto
      rw [hcomp]
      by_cases h : r ∈ seen
      · rw [if_pos h, if_pos (decide_eq_true h)]
        simp [Nat.add_comm]
      · rw [if_neg h, if_neg (by simp [h])]
        simp

theorem dropDupAux_spec (l : List Row) :
    ∀ seen, dropDupAux seen l =
      ((List.range l.length).filter
        (fun i => decide (l.getD i defaultRow ∉ seen ++ l.take i))).map
        (fun i => l.getD i defaultRow) := by
  induction l with
  | nil => intro seen; simp [dropDupAux]
  | cons r rest ih =>
      intro seen
      simp only [dropDupAux]
      rw [ih (r :: seen), List.length_cons, List.range_succ_eq_map,
        List.filter_cons, List.filter_map]
      simp only [List.getD_cons_zero, List.take_zero, List.append_nil]
      have hcomp : ((fun i => decide ((r :: rest).getD i defaultRow ∉
          seen ++ (r :: rest).take i)) ∘ Nat.succ) =
          (fun i => decide (rest.getD i defaultRow ∉
            (r :: seen) ++ rest.take i)) := by
        funext i
        simp only [Function.comp, List.getD_cons_succ, List.take_succ_cons]
        apply decide_eq_decide.mpr
        simp only [List.mem_append, List.mem_cons]
        tauto
      have hmap : (fun i => (r :: rest).getD i defaultRow) ∘ Nat.succ =
          (fun i => rest.getD i defaultRow) := by
        funext i
        simp [Function.comp, List.getD_cons_succ]
      rw [hcomp]
      by_cases h : r ∈ seen
      · rw [if_pos h, if_neg (by simp [h]), List.map_map, hmap]
      · rw [if_neg h, if_pos (by simp [h]), List.map_cons, List.map_map,
          hmap, List.getD_cons_zero]

theorem dupCount_eq_specDupCount (b : Batch) : dupCount b = specDupCount b := by
  rw [dupCount, dupCountAux_spec b [], specDupCount]
  simp only [List.nil_append]

theorem dropDup_eq_firstOccurrences (b : Batch) :
    dropDup b = firstOccurrences b := by
  rw [dropDup, dropDupAux_spec b [], firstOccurrences]
  simp only [List.nil_append]

/-- C7 (amended): the duplicate count equals the number of rows that are an
exact duplicate of an earlier row within the same batch, and duplicate
filtering keeps exactly the first occurrence of each duplicate group; a
batch of two identical rows increments the duplicate count by 1 (not 2),
and its cleaned batch retains exactly one of the two provided the row
passes the range and email filters (cleaning also applies those filters,
so an invalid duplicated row leaves zero copies). -/
theorem c7_duplicate_semantics :
    (∀ b : Batch, dupCount b = specDupCount b) ∧
    (∀ b : Batch, dropDup b = firstOccurrences b) ∧
    (∀ r : Row, dupCount [r, r] = 1) ∧
    (∀ r : Row, inRange r = true → is_valid_email r.email = true →
      (cleanBatch [r, r]).length = 1) := by
  refine ⟨dupCount_eq_specDupCount, dropDup_eq_firstOccurrences, ?_, ?_⟩
  · intro r; simp [dupCount, dupCountAux]
  · intro r h1 h2
    simp [cleanBatch, rangeFilter, dropDup, dropDupAux, emailFilter,
      normTimestamps, h1, h2]

/-- C7 counterexample: a batch of two identical rows with an invalid email
increments the duplicate count by 1, but its cleaned batch retains zero
of the two rows, not one. -/
theorem c7_invalid_duplicate_pair_fully_removed :
    dupCount [rowBadEmail, rowBadEmail] = 1 ∧
    (cleanBatch [rowBadEmail, rowBadEmail]).length = 0 := by
  decide

/-- Witness for C7: the retained-exactly-one clause applied at a concrete
fully valid row. -/
theorem c7_duplicate_semantics_witness :
    (cleanBatch [validRow, validRow]).length = 1 :=
  c7_duplicate_semantics.2.2.2 validRow (by decide) (by decide)

end DataProcess
